import Mathlib

/-!
# Verification of the claymore_exporter reply decoder and collector

Shallow embedding of the Go sources of `logingood/claymore_exporter`
(final revision: the variant with per-GPU temperature and fan-speed
support, whose `parseReply` de-interleaves position 6 of the reply).

Modelling conventions:
* A Raw Reply is a `List String` (the JSON array of strings the rig
  returns, already unmarshalled; `parseReply`'s marshal/unmarshal round
  trip is the identity on such a value).
* Go slice indexing `xs[i]` is modelled with `xs[i]?`; an out-of-range
  access is a Go runtime panic, modelled by `ParseResult.panicked`
  carrying a message naming the slice that was indexed out of range.
  The Go `parseReply` has no error-return path at all: its only failure
  mode is such a panic.
* `strconv.ParseFloat(s, 32)` returns a value and an error; on error the
  value is 0.  `parseFloatGo` models the accepted decimal syntax
  (optional sign, digits with optional fraction, optional decimal
  exponent) with exact rational values; the special forms `Inf`/`NaN`
  and hexadecimal floats are outside the modelled fragment, and float32
  rounding is not modelled (all values appearing in the claims are
  exactly representable).
* `log.Fatal` terminates the whole process; an unrecovered panic inside
  `Collect` likewise kills the exporter.  Both are modelled by `none` as
  the result of a whole collection cycle.
* The process environment is a function `String → String`; `os.Getenv`
  returns `""` for an unset variable, so unset and empty are
  indistinguishable, exactly as in Go.
-/

/-- Per-GPU record, from Go `type GPUInfo struct`. -/
structure GPUInfo where
  Name : String
  HashRate : String
  Temp : String
  FanSpeed : String
deriving Repr, DecidableEq

/-- Decoded statistics record, from Go `type ClaymoreStats struct`
(final revision: Uptime, TotalRate, EthFound, EthReject, GPUs). -/
structure ClaymoreStats where
  Uptime : String
  TotalRate : String
  EthFound : String
  EthReject : String
  GPUs : List GPUInfo
deriving Repr, DecidableEq

/-- Result of running Go `parseReply`: either a decoded record, or a Go
runtime panic (index out of range).  The Go function has no error-return
value, so there is no graceful-failure constructor to model. -/
inductive ParseResult where
  | panicked (msg : String) : ParseResult
  | parsed (stats : ClaymoreStats) : ParseResult
deriving Repr, DecidableEq

/-- Splits a character list at every `';'`.  Auxiliary for `goSplit`. -/
def splitSemi : List Char → List (List Char)
  | [] => [[]]
  | c :: t =>
    if c = ';' then [] :: splitSemi t
    else
      match splitSemi t with
      | [] => [[c]]
      | h :: r => (c :: h) :: r

/-- Go `strings.Split s ";"` (separator nonempty).  Agrees with Go on
every input, in particular `goSplit "" = [""]`: the result is never the
empty list. -/
def goSplit (s : String) : List String :=
  (splitSemi s.toList).map (fun l => String.mk l)

/-- Even-indexed entries of a list (indices 0, 2, 4, ...).  Models the
`i%2 == 0` branch of the de-interleaving loop in `parseReply`, which
appends `v` to `temps`. -/
def evenEntries {α : Type} : List α → List α
  | [] => []
  | [a] => [a]
  | a :: _ :: t => a :: evenEntries t

/-- Odd-indexed entries of a list (indices 1, 3, 5, ...).  Models the
`else` branch of the de-interleaving loop, which appends `v` to `fans`. -/
def oddEntries {α : Type} (l : List α) : List α := evenEntries (l.drop 1)

/-- Go `parseReply` (final revision, the temperature/fan variant).

Line-by-line correspondence with the source:
* `result[2]`, `result[3]`, `result[6]` are read unconditionally
  (`totals := strings.Split(result[2], ";")` etc.); a missing position
  is an index-out-of-range panic.
* the de-interleaving loop over `strings.Split(result[6], ";")` puts
  even-indexed entries into `temps` and odd-indexed ones into `fans`;
* `GPUs := make([]GPUInfo, len(hashrate))` and the fill loop read
  `fans[i]` and `temps[i]` for every `i < len(hashrate)`, panicking when
  either list is shorter than `hashrate` (the loop writes `FanSpeed`
  first, so a too-short `fans` is the first panic);
* the final struct literal reads `result[1]` and `totals[0..2]`.
There is no length validation anywhere in the source. -/
def parseReply (result : List String) : ParseResult :=
  match result[2]? with
  | none => .panicked "index out of range: result[2]"
  | some r2 =>
    match result[3]? with
    | none => .panicked "index out of range: result[3]"
    | some r3 =>
      match result[6]? with
      | none => .panicked "index out of range: result[6]"
      | some r6 =>
        let totals := goSplit r2
        let hashrate := goSplit r3
        let temps := evenEntries (goSplit r6)
        let fans := oddEntries (goSplit r6)
        if hashrate.length ≤ fans.length then
          if hashrate.length ≤ temps.length then
            let GPUs := (List.range hashrate.length).map (fun i =>
              ⟨"GPU" ++ toString i, hashrate.getD i "", temps.getD i "",
                fans.getD i ""⟩)
            match result[1]?, totals[0]?, totals[1]?, totals[2]? with
            | some r1, some t0, some t1, some t2 =>
              .parsed ⟨r1, t0, t1, t2, GPUs⟩
            | _, _, _, _ => .panicked "index out of range: totals"
          else .panicked "index out of range: temps"
        else .panicked "index out of range: fans"

/-- Value of a digit list read in base 10 (e.g. `['1','2','0'] ↦ 120`). -/
def digitsToNat (l : List Char) : Nat :=
  l.foldl (fun a c => a * 10 + (c.toNat - 48)) 0

/-- A run of decimal digits, possibly preceded by one sign character, as
accepted inside the exponent part of a Go float literal. -/
def parseSignedDigits : List Char → Option Int
  | '+' :: t =>
    if t ≠ [] ∧ t.all Char.isDigit then some (digitsToNat t) else none
  | '-' :: t =>
    if t ≠ [] ∧ t.all Char.isDigit then some (-(digitsToNat t : Int)) else none
  | t =>
    if t ≠ [] ∧ t.all Char.isDigit then some (digitsToNat t) else none

/-- Exponent suffix of a Go float literal: empty, or `e`/`E` followed by
optionally signed digits. -/
def parseExponent : List Char → Option Int
  | [] => some 0
  | 'e' :: t => parseSignedDigits t
  | 'E' :: t => parseSignedDigits t
  | _ => none

/-- `10 ^ n`, by plain structural recursion. -/
def pow10 : Nat → Nat
  | 0 => 1
  | n + 1 => 10 * pow10 n

/-- Go `strconv.ParseFloat(s, 32)`, restricted to the decimal fragment:
optional sign, integer digits, optional `.` and fraction digits (at
least one digit in the mantissa overall), optional decimal exponent.
`none` is Go's parse error, on which the surrounding code keeps the zero
value.  `Inf`/`NaN` and hexadecimal floats are outside the modelled
fragment, and the value is kept exact (float32 rounding not modelled).
The value of `±m.f × 10^e` is assembled as the exact rational
`±(mf) × 10^(e - |f|)` where `mf` is the digit string `m ++ f`. -/
def parseFloatGo (s : String) : Option ℚ :=
  let sp : Bool × List Char :=
    match s.toList with
    | '+' :: t => (false, t)
    | '-' :: t => (true, t)
    | t => (false, t)
  let ip := sp.2.takeWhile Char.isDigit
  let r1 := sp.2.dropWhile Char.isDigit
  let fr : List Char × List Char :=
    match r1 with
    | '.' :: t => (t.takeWhile Char.isDigit, t.dropWhile Char.isDigit)
    | t => ([], t)
  match parseExponent fr.2 with
  | none => none
  | some e =>
    if ip = [] ∧ fr.1 = [] then none
    else
      let mAbs : Int := (digitsToNat (ip ++ fr.1) : Int)
      let m : Int := if sp.1 then -mAbs else mAbs
      let shift : Int := e - (fr.1.length : Int)
      if 0 ≤ shift then some (mkRat (m * (pow10 shift.toNat : Int)) 1)
      else some (mkRat m (pow10 (-shift).toNat))

/-- The Go pattern `v, _ := strconv.ParseFloat(s, 32)`: the parsed value,
or the zero value when parsing fails, the error being discarded. -/
def parseOrZero (s : String) : ℚ := (parseFloatGo s).getD 0

/-- The numeric content of a decoded record, exactly as `Collect`
extracts it: every string field put through
`v, _ := strconv.ParseFloat(field, 32)`. -/
structure StatsValues where
  uptime : ℚ
  totalRate : ℚ
  ethFound : ℚ
  ethReject : ℚ
  hashRates : List ℚ
  temps : List ℚ
  fans : List ℚ
deriving Repr, DecidableEq

/-- Numeric view of a `ClaymoreStats`, per the conversions in `Collect`. -/
def statsValues (s : ClaymoreStats) : StatsValues :=
  ⟨parseOrZero s.Uptime, parseOrZero s.TotalRate, parseOrZero s.EthFound,
    parseOrZero s.EthReject,
    s.GPUs.map (fun g => parseOrZero g.HashRate),
    s.GPUs.map (fun g => parseOrZero g.Temp),
    s.GPUs.map (fun g => parseOrZero g.FanSpeed)⟩

/-- Numeric values decoded from a Raw Reply: `parseReply` followed by the
`ParseFloat` conversions of `Collect`; `none` when `parseReply` panics. -/
def decodeValues (r : List String) : Option StatsValues :=
  match parseReply r with
  | .panicked _ => none
  | .parsed s => some (statsValues s)

/-- One sample sent on the collector channel: metric name (from the
`prometheus.NewDesc` registrations), gauge value, label values. -/
structure Metric where
  name : String
  value : ℚ
  labels : List String
deriving Repr, DecidableEq

/-- The per-rig body of `Collect`: the samples emitted for one address
from its decoded record, in channel order — uptime, eth_found,
eth_reject, total_hash_rate (labelled by rig address), then one loop per
GPU field (labelled by rig address and `GPU<i>` name). -/
def collectRig (addr : String) (stats : ClaymoreStats) : List Metric :=
  [⟨"miner_total_uptime", parseOrZero stats.Uptime, [addr]⟩,
   ⟨"eth_found", parseOrZero stats.EthFound, [addr]⟩,
   ⟨"eth_reject", parseOrZero stats.EthReject, [addr]⟩,
   ⟨"total_hash_rate", parseOrZero stats.TotalRate, [addr]⟩]
  ++ stats.GPUs.map (fun g => ⟨"gpu_hash_rate", parseOrZero g.HashRate, [addr, g.Name]⟩)
  ++ stats.GPUs.map (fun g => ⟨"gpu_temp_celsius", parseOrZero g.Temp, [addr, g.Name]⟩)
  ++ stats.GPUs.map (fun g => ⟨"gpu_fanspeed_percentage", parseOrZero g.FanSpeed, [addr, g.Name]⟩)

/-- Outcome of the network interaction with one rig: the dial fails, the
RPC call returns a protocol-level error, or a Raw Reply comes back. -/
inductive NetOutcome where
  | dialErr : NetOutcome
  | rpcErr : NetOutcome
  | ok (reply : List String) : NetOutcome
deriving Repr, DecidableEq

/-- What `callClaymore` does: return a reply, or terminate the whole
process (`log.Fatal`). -/
inductive CallResult where
  | reply (r : List String) : CallResult
  | fatalExit : CallResult
deriving Repr, DecidableEq

/-- The fixed placeholder reply substituted by `callClaymore` when
dialing fails (the `fake_reply` raw JSON literal in the source). -/
def fakeReply : List String :=
  ["Fake Version", "0", "0;0;0", "0", "0;0;0", "off;off;off;off", "0;0",
   "fake.miner", "0;0;0;0"]

/-- Go `callClaymore` (final revision): on dial error, log and return the
placeholder `fake_reply`; on RPC-call error, `log.Fatal` terminates the
process; otherwise return the rig's reply.  (The `log.Print` on the dial
path is an I/O effect not modelled here.) -/
def callClaymore : NetOutcome → CallResult
  | .dialErr => .reply fakeReply
  | .rpcErr => .fatalExit
  | .ok r => .reply r

/-- Go `Collect`: iterate over the configured addresses in order, calling
and decoding each rig and emitting its samples.  `none` models death of
the exporter process: `log.Fatal` inside `callClaymore`, or an
unrecovered panic inside `parseReply`.  Each rig is given here with the
network outcome its poll produces. -/
def collect : List (String × NetOutcome) → Option (List Metric)
  | [] => some []
  | (addr, outcome) :: rest =>
    match callClaymore outcome with
    | .fatalExit => none
    | .reply r =>
      match parseReply r with
      | .panicked _ => none
      | .parsed stats =>
        match collect rest with
        | none => none
        | some ms => some (collectRig addr stats ++ ms)

/-- Exporter configuration, from Go `type expConf struct`. -/
structure expConf where
  Dial_Addr : List String
  Port : String
  Proto : String
  Method : String
deriving Repr, DecidableEq

/-- Go `fillDefaults`. -/
def fillDefaults : expConf :=
  ⟨["127.0.0.1"], "3333", "tcp", "miner_getstat1"⟩

/-- Go `readConf`.  The environment is a function `String → String` with
`""` for unset variables, as `os.Getenv` returns.  `none` models the Go
`panic` raised when `CLAYMORE_DIAL_ADDR` has length zero; otherwise the
defaults from `fillDefaults` are overridden by every non-empty variable. -/
def readConf (env : String → String) : Option expConf :=
  let conf := fillDefaults
  let dial_addr := env "CLAYMORE_DIAL_ADDR"
  if dial_addr.length = 0 then none
  else
    let port := env "CLAYMORE_PORT"
    let proto := env "CLAYMORE_PROTO"
    let method := env "CLAYMORE_STATS"
    some ⟨goSplit dial_addr,
      if port.length ≠ 0 then port else conf.Port,
      if proto.length ≠ 0 then proto else conf.Proto,
      if method.length ≠ 0 then method else conf.Method⟩

/-- A concrete environment with two rig addresses configured and every
other variable unset (`os.Getenv` then returns `""`). -/
def envExample : String → String := fun v =>
  if v = "CLAYMORE_DIAL_ADDR" then "10.0.0.1;10.0.0.2" else ""

/-! ## Helper lemmas about `collectRig` -/

theorem string_length_eq_zero_iff (s : String) : s.length = 0 ↔ s = "" := by
  cases s with
  | mk data =>
    cases data with
    | nil => simp
    | cons c t => simp [String.length, String.ext_iff]

theorem parseOrZero_eq_zero {s : String} (h : parseFloatGo s = none) :
    parseOrZero s = 0 := by
  simp [parseOrZero, h]

theorem mem_collectRig_uptime (addr : String) (stats : ClaymoreStats) :
    Metric.mk "miner_total_uptime" (parseOrZero stats.Uptime) [addr] ∈
      collectRig addr stats := by
  simp [collectRig]

theorem mem_collectRig_ethfound (addr : String) (stats : ClaymoreStats) :
    Metric.mk "eth_found" (parseOrZero stats.EthFound) [addr] ∈
      collectRig addr stats := by
  simp [collectRig]

theorem mem_collectRig_ethreject (addr : String) (stats : ClaymoreStats) :
    Metric.mk "eth_reject" (parseOrZero stats.EthReject) [addr] ∈
      collectRig addr stats := by
  simp [collectRig]

theorem mem_collectRig_totalrate (addr : String) (stats : ClaymoreStats) :
    Metric.mk "total_hash_rate" (parseOrZero stats.TotalRate) [addr] ∈
      collectRig addr stats := by
  simp [collectRig]

theorem mem_collectRig_hashrate (addr : String) (stats : ClaymoreStats)
    (g : GPUInfo) (hg : g ∈ stats.GPUs) :
    Metric.mk "gpu_hash_rate" (parseOrZero g.HashRate) [addr, g.Name] ∈
      collectRig addr stats := by
  simp only [collectRig, List.mem_append, List.mem_map]
  exact Or.inl (Or.inl (Or.inr ⟨g, hg, rfl⟩))

theorem mem_collectRig_temp (addr : String) (stats : ClaymoreStats)
    (g : GPUInfo) (hg : g ∈ stats.GPUs) :
    Metric.mk "gpu_temp_celsius" (parseOrZero g.Temp) [addr, g.Name] ∈
      collectRig addr stats := by
  simp only [collectRig, List.mem_append, List.mem_map]
  exact Or.inl (Or.inr ⟨g, hg, rfl⟩)

theorem mem_collectRig_fanspeed (addr : String) (stats : ClaymoreStats)
    (g : GPUInfo) (hg : g ∈ stats.GPUs) :
    Metric.mk "gpu_fanspeed_percentage" (parseOrZero g.FanSpeed) [addr, g.Name] ∈
      collectRig addr stats := by
  simp only [collectRig, List.mem_append, List.mem_map]
  exact Or.inr ⟨g, hg, rfl⟩

theorem collectRig_length (addr : String) (stats : ClaymoreStats) :
    (collectRig addr stats).length = 4 + 3 * stats.GPUs.length := by
  simp [collectRig]
  omega

/-- Inversion on a successful `parseReply`: the shape of the GPU list in
terms of positions 3 and 6 of the reply. -/
theorem parseReply_parsed_inv (r : List String) (s : ClaymoreStats)
    (hp : parseReply r = .parsed s) :
    ∃ r3 r6, r[3]? = some r3 ∧ r[6]? = some r6 ∧
      s.GPUs = (List.range (goSplit r3).length).map (fun i =>
        ⟨"GPU" ++ toString i, (goSplit r3).getD i "",
          (evenEntries (goSplit r6)).getD i "",
          (oddEntries (goSplit r6)).getD i ""⟩) := by
  unfold parseReply at hp
  split at hp
  · exact absurd hp (by simp)
  next r2 h2 =>
    split at hp
    · exact absurd hp (by simp)
    next r3 h3 =>
      split at hp
      · exact absurd hp (by simp)
      next r6 h6 =>
        dsimp only at hp
        split at hp
        · split at hp
          · split at hp
            next r1 t0 t1 t2 hm =>
              injection hp with hs
              exact ⟨r3, r6, h3, h6, by rw [← hs]⟩
            next => exact absurd hp (by simp)
          · exact absurd hp (by simp)
        · exact absurd hp (by simp)

/-! ## Claim theorems -/

/-- C1: the claim says a Raw Reply with fewer than 4 positions makes
`parseReply` fail with a `MalformedReply` condition without accessing
the missing positions and without panicking.  The code has no length
validation and no error-return path at all: on the 3-position reply
`["v", "5", "120;10;2"]` it reads the missing position 3 and dies with a
Go index-out-of-range runtime panic (`ParseResult.panicked`), so the
claimed behaviour does not hold. -/
theorem parseReply_short_reply_panics :
    parseReply ["v", "5", "120;10;2"] =
      .panicked "index out of range: result[3]" := by decide

/-- C2: the claim says a count mismatch across the hash-rate and
temperature/fan-speed sublists is a `MalformedReply` decode failure and
never a crash.  On the reply whose hash-rate field has 2 entries but
whose position 6 de-interleaves into only one fan entry, the GPU fill
loop reads `fans[1]` out of range and the code panics instead. -/
theorem parseReply_gpu_count_mismatch_panics :
    parseReply ["v", "5", "120;10;2", "100;200", "fan", "x", "0;50"] =
      .panicked "index out of range: fans" := by decide

/-- C3: decoding the Raw Reply
`["v","5","120;10;2","100;200","fan","x","0;50;1;60"]` yields uptime 5,
total rate 120, shares found 10, shares rejected 2, per-device hash
rates [100, 200], temperatures [0, 1] (even-indexed entries of position
6) and fan speeds [50, 60] (odd-indexed entries), zipped with the
hash-rate entries by index. -/
theorem parseReply_example_decode :
    parseReply ["v", "5", "120;10;2", "100;200", "fan", "x", "0;50;1;60"] =
      .parsed ⟨"5", "120", "10", "2",
        [⟨"GPU0", "100", "0", "50"⟩, ⟨"GPU1", "200", "1", "60"⟩]⟩ ∧
    decodeValues ["v", "5", "120;10;2", "100;200", "fan", "x", "0;50;1;60"] =
      some ⟨5, 120, 10, 2, [100, 200], [0, 1], [50, 60]⟩ := by decide

/-- C4: the claim says a protocol-level RPC error aborts only the
offending rig's poll, and the remaining rigs are still polled.  The code
calls `log.Fatal` on an RPC-call error, terminating the whole exporter
process (`collect … = none`): the healthy second rig — which on its own
would produce a full sample set — contributes nothing. -/
theorem collect_rpc_error_terminates_process :
    collect [("rig1", .rpcErr),
      ("rig2", .ok ["v", "5", "120;10;2", "100;200", "fan", "x", "0;50;1;60"])] =
        none ∧
    (collect [("rig2",
      .ok ["v", "5", "120;10;2", "100;200", "fan", "x", "0;50;1;60"])]).isSome =
        true := by decide

/-- C5: a field whose string fails to parse as a number yields the value
0 while every sibling field of the same record is still emitted with its
own decoded value and the record's sample count is unaffected: each
emitted value depends only on its own source string. -/
theorem collectRig_parse_failure_isolated (addr : String)
    (stats : ClaymoreStats) (g : GPUInfo) (hg : g ∈ stats.GPUs)
    (hfail : parseFloatGo g.HashRate = none) :
    Metric.mk "gpu_hash_rate" 0 [addr, g.Name] ∈ collectRig addr stats ∧
    Metric.mk "gpu_temp_celsius" (parseOrZero g.Temp) [addr, g.Name] ∈
      collectRig addr stats ∧
    Metric.mk "gpu_fanspeed_percentage" (parseOrZero g.FanSpeed) [addr, g.Name] ∈
      collectRig addr stats ∧
    Metric.mk "miner_total_uptime" (parseOrZero stats.Uptime) [addr] ∈
      collectRig addr stats ∧
    Metric.mk "eth_found" (parseOrZero stats.EthFound) [addr] ∈
      collectRig addr stats ∧
    Metric.mk "eth_reject" (parseOrZero stats.EthReject) [addr] ∈
      collectRig addr stats ∧
    Metric.mk "total_hash_rate" (parseOrZero stats.TotalRate) [addr] ∈
      collectRig addr stats ∧
    (collectRig addr stats).length = 4 + 3 * stats.GPUs.length := by
  refine ⟨?_, mem_collectRig_temp addr stats g hg,
    mem_collectRig_fanspeed addr stats g hg,
    mem_collectRig_uptime addr stats,
    mem_collectRig_ethfound addr stats,
    mem_collectRig_ethreject addr stats,
    mem_collectRig_totalrate addr stats,
    collectRig_length addr stats⟩
  have h0 := parseOrZero_eq_zero hfail
  have := mem_collectRig_hashrate addr stats g hg
  rwa [h0] at this

/-- C5 witness: on a record with one GPU whose hash-rate string is the
non-numeric `"abc"`, the hash-rate sample is 0 while the temperature
sample keeps its own value 61 and all 7 samples are emitted. -/
theorem collectRig_parse_failure_isolated_witness :
    (⟨"GPU0", "abc", "61", "50"⟩ : GPUInfo) ∈
      (⟨"5", "120", "10", "2", [⟨"GPU0", "abc", "61", "50"⟩]⟩ :
        ClaymoreStats).GPUs ∧
    parseFloatGo "abc" = none ∧
    (Metric.mk "gpu_hash_rate" 0 ["rig", "GPU0"] ∈
      collectRig "rig" ⟨"5", "120", "10", "2", [⟨"GPU0", "abc", "61", "50"⟩]⟩ ∧
    Metric.mk "gpu_temp_celsius" (parseOrZero "61") ["rig", "GPU0"] ∈
      collectRig "rig" ⟨"5", "120", "10", "2", [⟨"GPU0", "abc", "61", "50"⟩]⟩ ∧
    Metric.mk "gpu_fanspeed_percentage" (parseOrZero "50") ["rig", "GPU0"] ∈
      collectRig "rig" ⟨"5", "120", "10", "2", [⟨"GPU0", "abc", "61", "50"⟩]⟩ ∧
    Metric.mk "miner_total_uptime" (parseOrZero "5") ["rig"] ∈
      collectRig "rig" ⟨"5", "120", "10", "2", [⟨"GPU0", "abc", "61", "50"⟩]⟩ ∧
    Metric.mk "eth_found" (parseOrZero "10") ["rig"] ∈
      collectRig "rig" ⟨"5", "120", "10", "2", [⟨"GPU0", "abc", "61", "50"⟩]⟩ ∧
    Metric.mk "eth_reject" (parseOrZero "2") ["rig"] ∈
      collectRig "rig" ⟨"5", "120", "10", "2", [⟨"GPU0", "abc", "61", "50"⟩]⟩ ∧
    Metric.mk "total_hash_rate" (parseOrZero "120") ["rig"] ∈
      collectRig "rig" ⟨"5", "120", "10", "2", [⟨"GPU0", "abc", "61", "50"⟩]⟩ ∧
    (collectRig "rig"
      ⟨"5", "120", "10", "2", [⟨"GPU0", "abc", "61", "50"⟩]⟩).length =
        4 + 3 * (⟨"5", "120", "10", "2", [⟨"GPU0", "abc", "61", "50"⟩]⟩ :
          ClaymoreStats).GPUs.length) :=
  ⟨by decide, by decide,
    collectRig_parse_failure_isolated "rig"
      ⟨"5", "120", "10", "2", [⟨"GPU0", "abc", "61", "50"⟩]⟩
      ⟨"GPU0", "abc", "61", "50"⟩ (by decide) (by decide)⟩

/-- C6: on connection failure `callClaymore` returns the fixed
placeholder `fake_reply`, and decoding that placeholder yields a record
whose uptime, total hash rate, shares found, shares rejected and every
per-device hash rate, temperature and fan speed are all zero (one
placeholder device).  The `log.Print` of the dial error is an I/O effect
outside the embedding. -/
theorem callClaymore_dial_failure_placeholder_zeros :
    callClaymore .dialErr = .reply fakeReply ∧
    decodeValues fakeReply = some ⟨0, 0, 0, 0, [0], [0], [0]⟩ := by decide

/-- C7 counterexample: the claim says an empty per-device hash-rate
field (`""`) decodes to a record with zero device entries and zero
device-level samples.  Go's `strings.Split("", ";")` is `[""]`, so the
decoded record has exactly ONE device entry (`GPU0` with empty hash-rate
string), and a device-level `gpu_hash_rate` sample of value 0 is
emitted for it. -/
theorem parseReply_empty_hashrate_counterexample :
    parseReply ["v", "5", "120;10;2", "", "fan", "x", "0;50"] =
      .parsed ⟨"5", "120", "10", "2", [⟨"GPU0", "", "0", "50"⟩]⟩ ∧
    (⟨"5", "120", "10", "2", [⟨"GPU0", "", "0", "50"⟩]⟩ :
      ClaymoreStats).GPUs.length = 1 ∧
    Metric.mk "gpu_hash_rate" 0 ["rig", "GPU0"] ∈
      collectRig "rig" ⟨"5", "120", "10", "2", [⟨"GPU0", "", "0", "50"⟩]⟩ := by
  decide

/-- C7 amended: whenever a Raw Reply whose position 3 is the empty
string decodes successfully, the record has exactly one device entry,
named `GPU0` with empty hash-rate string, which is emitted as a single
device-level hash-rate sample of value 0; the rig-level aggregates
(uptime, shares found, shares rejected, total rate) are still emitted. -/
theorem parseReply_empty_hashrate_one_device (r : List String)
    (s : ClaymoreStats) (addr : String)
    (hp : parseReply r = .parsed s) (h3 : r[3]? = some "") :
    s.GPUs.length = 1 ∧
    s.GPUs.map GPUInfo.HashRate = [""] ∧
    Metric.mk "gpu_hash_rate" 0 [addr, "GPU0"] ∈ collectRig addr s ∧
    Metric.mk "miner_total_uptime" (parseOrZero s.Uptime) [addr] ∈
      collectRig addr s ∧
    Metric.mk "eth_found" (parseOrZero s.EthFound) [addr] ∈
      collectRig addr s ∧
    Metric.mk "eth_reject" (parseOrZero s.EthReject) [addr] ∈
      collectRig addr s ∧
    Metric.mk "total_hash_rate" (parseOrZero s.TotalRate) [addr] ∈
      collectRig addr s := by
  obtain ⟨r3, r6, h3', h6, hshape⟩ := parseReply_parsed_inv r s hp
  rw [h3] at h3'
  injection h3' with h3''
  subst h3''
  have hgpus : s.GPUs = [⟨"GPU0", "",
      (evenEntries (goSplit r6)).getD 0 "",
      (oddEntries (goSplit r6)).getD 0 ""⟩] := by
    rw [hshape]; rfl
  have hg : (⟨"GPU0", "", (evenEntries (goSplit r6)).getD 0 "",
      (oddEntries (goSplit r6)).getD 0 ""⟩ : GPUInfo) ∈ s.GPUs := by
    rw [hgpus]; exact List.mem_singleton_self _
  have hmem := mem_collectRig_hashrate addr s
    ⟨"GPU0", "", (evenEntries (goSplit r6)).getD 0 "",
      (oddEntries (goSplit r6)).getD 0 ""⟩ hg
  rw [parseOrZero_eq_zero (by decide : parseFloatGo "" = none)] at hmem
  exact ⟨by rw [hgpus]; rfl, by rw [hgpus]; rfl, hmem,
    mem_collectRig_uptime addr s, mem_collectRig_ethfound addr s,
    mem_collectRig_ethreject addr s, mem_collectRig_totalrate addr s⟩

/-- C7 amended witness: the concrete reply
`["v","5","120;10;2","","fan","x","0;50"]` decodes successfully, has
position 3 empty, and instantiating the amended theorem at it yields the
single zero-valued device sample and the four aggregates. -/
theorem parseReply_empty_hashrate_one_device_witness :
    parseReply ["v", "5", "120;10;2", "", "fan", "x", "0;50"] =
      .parsed ⟨"5", "120", "10", "2", [⟨"GPU0", "", "0", "50"⟩]⟩ ∧
    (["v", "5", "120;10;2", "", "fan", "x", "0;50"] :
      List String)[3]? = some "" ∧
    ((⟨"5", "120", "10", "2", [⟨"GPU0", "", "0", "50"⟩]⟩ :
        ClaymoreStats).GPUs.length = 1 ∧
      (⟨"5", "120", "10", "2", [⟨"GPU0", "", "0", "50"⟩]⟩ :
        ClaymoreStats).GPUs.map GPUInfo.HashRate = [""] ∧
      Metric.mk "gpu_hash_rate" 0 ["r0", "GPU0"] ∈
        collectRig "r0" ⟨"5", "120", "10", "2", [⟨"GPU0", "", "0", "50"⟩]⟩ ∧
      Metric.mk "miner_total_uptime" (parseOrZero "5") ["r0"] ∈
        collectRig "r0" ⟨"5", "120", "10", "2", [⟨"GPU0", "", "0", "50"⟩]⟩ ∧
      Metric.mk "eth_found" (parseOrZero "10") ["r0"] ∈
        collectRig "r0" ⟨"5", "120", "10", "2", [⟨"GPU0", "", "0", "50"⟩]⟩ ∧
      Metric.mk "eth_reject" (parseOrZero "2") ["r0"] ∈
        collectRig "r0" ⟨"5", "120", "10", "2", [⟨"GPU0", "", "0", "50"⟩]⟩ ∧
      Metric.mk "total_hash_rate" (parseOrZero "120") ["r0"] ∈
        collectRig "r0" ⟨"5", "120", "10", "2", [⟨"GPU0", "", "0", "50"⟩]⟩) :=
  ⟨by decide, by decide,
    parseReply_empty_hashrate_one_device
      ["v", "5", "120;10;2", "", "fan", "x", "0;50"]
      ⟨"5", "120", "10", "2", [⟨"GPU0", "", "0", "50"⟩]⟩ "r0"
      (by decide) (by decide)⟩

/-- C8: the claim says every numeric parse failure is recorded by an
observability counter in addition to the zero substitution.  The code
discards the `strconv.ParseFloat` error (`v, _ := …`) and maintains no
counter: the complete observable output of a collection cycle on a reply
containing the non-numeric hash-rate entry `"abc"` is identical to the
output on the same reply with `"0"` in its place, so no trace of the
parse failure is recorded anywhere. -/
theorem collect_parse_failure_unrecorded :
    collect [("rig",
        .ok ["v", "5", "120;10;2", "abc;200", "fan", "x", "0;50;1;60"])] =
      collect [("rig",
        .ok ["v", "5", "120;10;2", "0;200", "fan", "x", "0;50;1;60"])] ∧
    parseFloatGo "abc" = none ∧
    (collect [("rig",
        .ok ["v", "5", "120;10;2", "abc;200", "fan", "x", "0;50;1;60"])]).isSome =
      true := by decide

/-- C9: decoding is deterministic: re-deriving the numeric values from
the same Raw Reply reproduces exactly the same values (the decode
consults nothing but the reply). -/
theorem decodeValues_deterministic (r : List String) (v v' : StatsValues)
    (h : decodeValues r = some v) (h' : decodeValues r = some v') :
    v = v' := by
  rw [h] at h'
  exact Option.some.inj h'

/-- C9 witness: both decodes of a concrete synthetic reply produce the
same numeric values. -/
theorem decodeValues_deterministic_witness :
    decodeValues ["x", "7", "30;4;1", "15", "t", "u", "2;9"] =
      some ⟨7, 30, 4, 1, [15], [2], [9]⟩ ∧
    (⟨7, 30, 4, 1, [15], [2], [9]⟩ : StatsValues) =
      ⟨7, 30, 4, 1, [15], [2], [9]⟩ :=
  ⟨by decide,
    decodeValues_deterministic ["x", "7", "30;4;1", "15", "t", "u", "2;9"]
      ⟨7, 30, 4, 1, [15], [2], [9]⟩ ⟨7, 30, 4, 1, [15], [2], [9]⟩
      (by decide) (by decide)⟩

/-- C10: `readConf` panics (modelled `none`) exactly when
`CLAYMORE_DIAL_ADDR` is unset or empty; otherwise the rig address list
is the `;`-split of that variable, and each of port, protocol and RPC
method is the corresponding variable when non-empty and the default
`"3333"`, `"tcp"`, `"miner_getstat1"` otherwise. -/
theorem readConf_spec (env : String → String) :
    (readConf env = none ↔ env "CLAYMORE_DIAL_ADDR" = "") ∧
    (env "CLAYMORE_DIAL_ADDR" ≠ "" →
      readConf env = some ⟨goSplit (env "CLAYMORE_DIAL_ADDR"),
        if env "CLAYMORE_PORT" ≠ "" then env "CLAYMORE_PORT" else "3333",
        if env "CLAYMORE_PROTO" ≠ "" then env "CLAYMORE_PROTO" else "tcp",
        if env "CLAYMORE_STATS" ≠ "" then env "CLAYMORE_STATS"
          else "miner_getstat1"⟩) := by
  constructor
  · constructor
    · intro h
      by_contra hne
      have hlen : (env "CLAYMORE_DIAL_ADDR").length ≠ 0 :=
        fun h0 => hne ((string_length_eq_zero_iff _).mp h0)
      simp [readConf, hlen] at h
    · intro h
      have hlen : (env "CLAYMORE_DIAL_ADDR").length = 0 := by rw [h]; rfl
      simp [readConf, hlen]
  · intro hne
    have hlen : ¬(env "CLAYMORE_DIAL_ADDR").length = 0 :=
      fun h0 => hne ((string_length_eq_zero_iff _).mp h0)
    simp [readConf, hlen, string_length_eq_zero_iff, fillDefaults]

/-- C10 witness: with two addresses configured and the other variables
unset, `readConf` yields the split address list and the three defaults. -/
theorem readConf_spec_witness :
    envExample "CLAYMORE_DIAL_ADDR" ≠ "" ∧
    readConf envExample =
      some ⟨["10.0.0.1", "10.0.0.2"], "3333", "tcp", "miner_getstat1"⟩ :=
  ⟨by decide, by
    have h := (readConf_spec envExample).2 (by decide)
    rw [h]; decide⟩

/-! ## Model-validation lemmas

Sanity facts pinning the embedding to the Go semantics it models. -/

/-- Go `strings.Split("", ";")` is `[""]`, never the empty list. -/
theorem goSplit_empty : goSplit "" = [""] := by decide

/-- De-interleaving by parity, as in the loop over position 6. -/
theorem deinterleave_example :
    evenEntries ["0", "50", "1", "60"] = ["0", "1"] ∧
    oddEntries ["0", "50", "1", "60"] = ["50", "60"] := by decide

/-- `strconv.ParseFloat` model: numeric forms parse exactly, garbage and
the empty string fail (and so are read as 0 by `parseOrZero`). -/
theorem parseFloatGo_examples :
    parseFloatGo "120" = some 120 ∧
    parseFloatGo "-1.5" = some (mkRat (-3) 2) ∧
    parseFloatGo "2e3" = some 2000 ∧
    parseFloatGo "off" = none ∧
    parseFloatGo "" = none ∧
    parseOrZero "" = 0 := by decide
